import Mathlib

/-
Verification of the detection de-duplication state machine of the MONKEY
repository.  The core is FixedMonkeyDetectorGUI.handle_detection in
src/monkey_detector_app.py, together with the session reset performed by
start_detection and the (wall-clock based) alternative handler
MonkeyDetectionGUI.handle_detection in src/monkey_detection_gui.py.
-/

namespace Monkey

/-- A per-frame signal delivered to the detection handler.  The field
`detected` is the boolean detection result, `confidence` the detector
confidence echoed into status text, and `now` models the ambient wall
clock value (time.time()) at the instant the observation is delivered. -/
structure FrameSignal where
  detected : Bool
  confidence : ℚ
  now : ℚ
  deriving Repr, DecidableEq

/-- The mutable detection-tracking state of FixedMonkeyDetectorGUI:
fields monkey_present, detection_count, no_detection_frames and
detection_start_time of the Python object (src/monkey_detector_app.py,
lines 42-48). -/
structure SightingState where
  monkey_present : Bool
  detection_count : Nat
  no_detection_frames : Nat
  detection_start_time : Option ℚ
  deriving Repr, DecidableEq

/-- The observable outcome of one call to handle_detection:
SightingStarted is the NEW-MONKEY branch (count increment, MONKEY_DETECTED
alert), SightingOngoing the tracking-same-monkey branch, SightingEnded the
monkey-left branch (STOP_ALERT), and Idle the remaining no-op branches. -/
inductive SightingEvent where
  | SightingStarted : Nat → ℚ → SightingEvent
  | SightingOngoing : ℚ → SightingEvent
  | SightingEnded : SightingEvent
  | Idle : SightingEvent
  deriving Repr, DecidableEq

/-- The gap threshold min_gap_frames set in the constructor
(src/monkey_detector_app.py line 48). -/
def min_gap_frames : Nat := 30

/-- Shallow embedding of FixedMonkeyDetectorGUI.handle_detection
(src/monkey_detector_app.py lines 468-518).  Note that the monkey-left
branch sets monkey_present to false but does not clear
no_detection_frames, exactly as the source does. -/
def handle_detection (gap : Nat) (s : SightingState)
    (detected : Bool) (confidence : ℚ) (now : ℚ) :
    SightingState × SightingEvent :=
  if detected then
    if s.monkey_present then
      ({ s with no_detection_frames := 0 },
       SightingEvent.SightingOngoing confidence)
    else
      ({ monkey_present := true,
         detection_count := s.detection_count + 1,
         no_detection_frames := 0,
         detection_start_time := some now },
       SightingEvent.SightingStarted (s.detection_count + 1) confidence)
  else
    let n := s.no_detection_frames + 1
    if s.monkey_present ∧ gap ≤ n then
      ({ s with no_detection_frames := n, monkey_present := false },
       SightingEvent.SightingEnded)
    else
      ({ s with no_detection_frames := n }, SightingEvent.Idle)

/-- One observation step: handle_detection applied to one FrameSignal. -/
def observe (gap : Nat) (s : SightingState) (o : FrameSignal) :
    SightingState × SightingEvent :=
  handle_detection gap s o.detected o.confidence o.now

/-- The freshly constructed state (src/monkey_detector_app.py lines
42-48): count 0, not present, zero absence run, no start time. -/
def initState : SightingState :=
  { monkey_present := false, detection_count := 0,
    no_detection_frames := 0, detection_start_time := none }

/-- The state reset performed by start_detection
(src/monkey_detector_app.py lines 362-366): it clears monkey_present,
detection_start_time and no_detection_frames but leaves detection_count
untouched, exactly as the source does. -/
def start_detection_reset (s : SightingState) : SightingState :=
  { s with monkey_present := false, detection_start_time := none,
           no_detection_frames := 0 }

/-- Process a list of frame signals, returning the final state and the
list of emitted events in order. -/
def runSignals (gap : Nat) (s : SightingState) :
    List FrameSignal → SightingState × List SightingEvent
  | [] => (s, [])
  | o :: rest =>
    let p := observe gap s o
    let r := runSignals gap p.1 rest
    (r.1, p.2 :: r.2)

/-- Number of Absent-to-Present transitions in a run: observations with
detected true arriving while monkey_present is false. -/
def risingEdges (gap : Nat) (s : SightingState) : List FrameSignal → Nat
  | [] => 0
  | o :: rest =>
    (if o.detected && !s.monkey_present then 1 else 0) +
      risingEdges gap (observe gap s o).1 rest

/-- The de-duplication-relevant projection of the state: presence flag,
sighting count and absence-run counter (dropping the stored timestamp). -/
def proj (s : SightingState) : Bool × Nat × Nat :=
  (s.monkey_present, s.detection_count, s.no_detection_frames)

/-- Recognizer for SightingStarted events. -/
def isStarted : SightingEvent → Bool
  | SightingEvent.SightingStarted _ _ => true
  | _ => false

/-- Recognizer for SightingEnded events. -/
def isEnded : SightingEvent → Bool
  | SightingEvent.SightingEnded => true
  | _ => false

/-- Recognizer for the edge events SightingStarted and SightingEnded. -/
def isEdgeEvent (e : SightingEvent) : Bool := isStarted e || isEnded e

/-- alternatingB b es holds when, reading es left to right, Started and
Ended events strictly alternate, the first expected kind being Started
when b is true and Ended when b is false. -/
def alternatingB : Bool → List SightingEvent → Bool
  | _, [] => true
  | true, e :: rest => isStarted e && alternatingB false rest
  | false, e :: rest => isEnded e && alternatingB true rest

/-- The detected-value scenario [T,F,F,T,F,F,F,F] of the spec, with unit
confidence and zero timestamps. -/
def seqC5 : List FrameSignal :=
  [⟨true, 1, 0⟩, ⟨false, 1, 0⟩, ⟨false, 1, 0⟩, ⟨true, 1, 0⟩,
   ⟨false, 1, 0⟩, ⟨false, 1, 0⟩, ⟨false, 1, 0⟩, ⟨false, 1, 0⟩]

/-- The detection-tracking state of MonkeyDetectionGUI
(src/monkey_detection_gui.py lines 48-50): a count and the wall-clock
instant of the last counted detection. -/
structure GuiState where
  detection_count : Nat
  last_detection_time : ℚ
  deriving Repr, DecidableEq

/-- Shallow embedding of MonkeyDetectionGUI.handle_detection
(src/monkey_detection_gui.py lines 651-679): a detection is counted only
when more than alert_cooldown seconds of wall-clock time have elapsed
since the last counted one. -/
def gui_handle_detection (alert_cooldown : ℚ) (s : GuiState)
    (o : FrameSignal) : GuiState :=
  if o.detected then
    if o.now - s.last_detection_time > alert_cooldown then
      { detection_count := s.detection_count + 1,
        last_detection_time := o.now }
    else s
  else s

/-- The freshly constructed MonkeyDetectionGUI state
(src/monkey_detection_gui.py lines 48-49). -/
def guiInit : GuiState :=
  { detection_count := 0, last_detection_time := 0 }

/-- Process a list of frame signals through the wall-clock handler. -/
def runGui (alert_cooldown : ℚ) (s : GuiState) :
    List FrameSignal → GuiState
  | [] => s
  | o :: rest => runGui alert_cooldown (gui_handle_detection alert_cooldown s o) rest

/-- Case lemma: a detection while absent takes the NEW-MONKEY branch. -/
theorem observe_true_absent (gap : Nat) (s : SightingState) (o : FrameSignal)
    (hd : o.detected = true) (hp : s.monkey_present = false) :
    observe gap s o =
      ({ monkey_present := true, detection_count := s.detection_count + 1,
         no_detection_frames := 0, detection_start_time := some o.now },
       SightingEvent.SightingStarted (s.detection_count + 1) o.confidence) := by
  simp [observe, handle_detection, hd, hp]

/-- Case lemma: a detection while present takes the tracking branch. -/
theorem observe_true_present (gap : Nat) (s : SightingState) (o : FrameSignal)
    (hd : o.detected = true) (hp : s.monkey_present = true) :
    observe gap s o =
      ({ s with no_detection_frames := 0 },
       SightingEvent.SightingOngoing o.confidence) := by
  simp [observe, handle_detection, hd, hp]

/-- Case lemma: a non-detection while present with the incremented run
reaching the gap takes the monkey-left branch; the run counter keeps its
incremented value. -/
theorem observe_false_end (gap : Nat) (s : SightingState) (o : FrameSignal)
    (hd : o.detected = false) (hp : s.monkey_present = true)
    (hg : gap ≤ s.no_detection_frames + 1) :
    observe gap s o =
      ({ s with monkey_present := false,
                no_detection_frames := s.no_detection_frames + 1 },
       SightingEvent.SightingEnded) := by
  simp [observe, handle_detection, hd, hp, hg]

/-- Case lemma: a non-detection while present below the gap is a no-op
apart from incrementing the run counter. -/
theorem observe_false_present_lt (gap : Nat) (s : SightingState) (o : FrameSignal)
    (hd : o.detected = false) (hp : s.monkey_present = true)
    (hg : s.no_detection_frames + 1 < gap) :
    observe gap s o =
      ({ s with no_detection_frames := s.no_detection_frames + 1 },
       SightingEvent.Idle) := by
  simp [observe, handle_detection, hd, hp, Nat.not_le.mpr hg]

/-- Case lemma: a non-detection while absent only increments the run
counter. -/
theorem observe_false_absent (gap : Nat) (s : SightingState) (o : FrameSignal)
    (hd : o.detected = false) (hp : s.monkey_present = false) :
    observe gap s o =
      ({ s with no_detection_frames := s.no_detection_frames + 1 },
       SightingEvent.Idle) := by
  simp [observe, handle_detection, hd, hp]

/-- Unfolding lemma for runSignals on a cons cell. -/
theorem runSignals_cons (gap : Nat) (s : SightingState) (o : FrameSignal)
    (rest : List FrameSignal) :
    runSignals gap s (o :: rest) =
      ((runSignals gap (observe gap s o).1 rest).1,
       (observe gap s o).2 :: (runSignals gap (observe gap s o).1 rest).2) := rfl

/-- Processing a concatenation processes the parts in sequence. -/
theorem runSignals_append (gap : Nat) (s : SightingState)
    (l₁ l₂ : List FrameSignal) :
    runSignals gap s (l₁ ++ l₂) =
      ((runSignals gap (runSignals gap s l₁).1 l₂).1,
       (runSignals gap s l₁).2 ++ (runSignals gap (runSignals gap s l₁).1 l₂).2) := by
  induction l₁ generalizing s with
  | nil => simp [runSignals]
  | cons o rest ih =>
    simp only [List.cons_append, runSignals_cons, ih, List.cons_append]

/-- The final count of a run is the initial count plus the number of
rising edges processed. -/
theorem runSignals_count (gap : Nat) (sigs : List FrameSignal) :
    ∀ s : SightingState,
      (runSignals gap s sigs).1.detection_count =
        s.detection_count + risingEdges gap s sigs := by
  induction sigs with
  | nil => intro s; simp [runSignals, risingEdges]
  | cons o rest ih =>
    intro s
    rw [runSignals_cons, risingEdges, ih]
    rcases hd : o.detected with _ | _
    · rcases hp : s.monkey_present with _ | _
      · rw [observe_false_absent gap s o hd hp]; simp
      · by_cases hg : gap ≤ s.no_detection_frames + 1
        · rw [observe_false_end gap s o hd hp hg]; simp
        · rw [observe_false_present_lt gap s o hd hp (Nat.not_le.mp hg)]; simp
    · rcases hp : s.monkey_present with _ | _
      · rw [observe_true_absent gap s o hd hp]; simp [hd, hp]; omega
      · rw [observe_true_present gap s o hd hp]; simp [hd, hp]

/-- C1: for every sequence of FrameSignal inputs processed by
handle_detection, the final detection_count equals the number of
Absent-to-Present transitions of the run; moreover a single observation
increments the count by exactly 1 when detected is true while absent, the
count never decreases along any run, and an observation arriving while
present never changes the count. -/
theorem count_equals_rising_edges (gap : Nat) :
    (∀ sigs : List FrameSignal,
        (runSignals gap initState sigs).1.detection_count =
          risingEdges gap initState sigs) ∧
    (∀ (s : SightingState) (o : FrameSignal),
        o.detected = true → s.monkey_present = false →
        (observe gap s o).1.detection_count = s.detection_count + 1) ∧
    (∀ (s : SightingState) (sigs : List FrameSignal),
        s.detection_count ≤ (runSignals gap s sigs).1.detection_count) ∧
    (∀ (s : SightingState) (o : FrameSignal), s.monkey_present = true →
        (observe gap s o).1.detection_count = s.detection_count) := by
  refine ⟨fun sigs => by
            simpa [initState] using runSignals_count gap sigs initState,
          fun s o hd hp => by rw [observe_true_absent gap s o hd hp],
          fun s sigs => by rw [runSignals_count]; omega,
          fun s o hp => ?_⟩
  rcases hd : o.detected with _ | _
  · by_cases hg : gap ≤ s.no_detection_frames + 1
    · rw [observe_false_end gap s o hd hp hg]
    · rw [observe_false_present_lt gap s o hd hp (Nat.not_le.mp hg)]
  · rw [observe_true_present gap s o hd hp]

/-- Witness for C1 at a concrete rising edge from the initial state. -/
theorem count_equals_rising_edges_witness :
    ((⟨true, 1, 0⟩ : FrameSignal).detected = true) ∧
    (initState.monkey_present = false) ∧
    (observe 30 initState ⟨true, 1, 0⟩).1.detection_count =
      initState.detection_count + 1 :=
  ⟨rfl, rfl, (count_equals_rising_edges 30).2.1 initState ⟨true, 1, 0⟩ rfl rfl⟩

/-- A run of detected-false signals from a present state stays entirely
below the gap threshold: the state stays present with the run counter
advanced, and every emitted event is Idle. -/
theorem run_absentRun_below (gap c : Nat) (t : Option ℚ) :
    ∀ (l : List FrameSignal) (n : Nat),
      (∀ x ∈ l, x.detected = false) → n + l.length < gap →
      runSignals gap ⟨true, c, n, t⟩ l =
        (⟨true, c, n + l.length, t⟩,
         List.replicate l.length SightingEvent.Idle) := by
  intro l
  induction l with
  | nil => intro n _ _; simp [runSignals]
  | cons o rest ih =>
    intro n hall hlen
    have hd : o.detected = false := hall o (List.mem_cons_self o rest)
    have hlt : n + 1 < gap := by simp at hlen; omega
    rw [runSignals_cons,
        observe_false_present_lt gap ⟨true, c, n, t⟩ o hd rfl hlt]
    have hrest :
        runSignals gap ⟨true, c, n + 1, t⟩ rest =
          (⟨true, c, (n + 1) + rest.length, t⟩,
           List.replicate rest.length SightingEvent.Idle) :=
      ih (n + 1) (fun x hx => hall x (List.mem_cons_of_mem o hx))
        (by simp at hlen ⊢; omega)
    have harith : (n + 1) + rest.length = n + (o :: rest).length := by
      simp; omega
    rw [show { (⟨true, c, n, t⟩ : SightingState) with
                 no_detection_frames := n + 1 } =
          (⟨true, c, n + 1, t⟩ : SightingState) from rfl, hrest, harith]
    simp [List.replicate_succ]

/-- C2: with the source gap of 30 frames, from a present state with a
zero absence run, any 29 detected-false observations keep the state
present and emit only Idle events; a 30th detected-false observation then
flips the state to absent and emits exactly one SightingEnded, as the
final event of the run. -/
theorem gap_boundary_thirty (c : Nat) (t : Option ℚ) (l : List FrameSignal)
    (o : FrameSignal) (hl : ∀ x ∈ l, x.detected = false)
    (hlen : l.length = 29) (ho : o.detected = false) :
    (runSignals min_gap_frames ⟨true, c, 0, t⟩ l).1.monkey_present = true ∧
    (runSignals min_gap_frames ⟨true, c, 0, t⟩ l).2 =
      List.replicate 29 SightingEvent.Idle ∧
    (runSignals min_gap_frames ⟨true, c, 0, t⟩ (l ++ [o])).1.monkey_present
      = false ∧
    (runSignals min_gap_frames ⟨true, c, 0, t⟩ (l ++ [o])).2 =
      List.replicate 29 SightingEvent.Idle ++ [SightingEvent.SightingEnded] := by
  have h29 :
      runSignals min_gap_frames ⟨true, c, 0, t⟩ l =
        (⟨true, c, 29, t⟩, List.replicate 29 SightingEvent.Idle) := by
    have := run_absentRun_below min_gap_frames c t l 0 hl
      (by rw [hlen]; simp [min_gap_frames])
    rwa [hlen] at this
  have hend :
      runSignals min_gap_frames (⟨true, c, 29, t⟩ : SightingState) [o] =
        (⟨false, c, 30, t⟩, [SightingEvent.SightingEnded]) := by
    rw [runSignals_cons,
        observe_false_end min_gap_frames ⟨true, c, 29, t⟩ o ho rfl
          (by simp [min_gap_frames])]
    simp [runSignals]
  refine ⟨by rw [h29], by rw [h29], ?_, ?_⟩
  · rw [runSignals_append, h29]
    simp only [hend]
  · rw [runSignals_append, h29]
    simp only [hend]

/-- Counterexample to C3: on the Present-to-Absent transition the code
does not reset no_detection_frames.  From a present state with a run of
29 and gap 30, the 30th detected-false observation flips monkey_present
to false and emits SightingEnded, but leaves no_detection_frames at 30,
not 0. -/
theorem end_transition_keeps_counter :
    (observe 30 ⟨true, 1, 29, none⟩ ⟨false, 0, 0⟩).1.monkey_present = false ∧
    (observe 30 ⟨true, 1, 29, none⟩ ⟨false, 0, 0⟩).2 =
      SightingEvent.SightingEnded ∧
    (observe 30 ⟨true, 1, 29, none⟩ ⟨false, 0, 0⟩).1.no_detection_frames
      = 30 := by
  decide

/-- C3 (amended): on every Present-to-Absent transition the operation
sets monkey_present to false, emits SightingEnded and leaves the count
unchanged, but no_detection_frames keeps its incremented value (which is
at least the gap) instead of being reset to 0. -/
theorem end_transition_state (gap : Nat) (s : SightingState) (o : FrameSignal)
    (hd : o.detected = false) (hp : s.monkey_present = true)
    (hg : gap ≤ s.no_detection_frames + 1) :
    (observe gap s o).1.monkey_present = false ∧
    (observe gap s o).1.no_detection_frames = s.no_detection_frames + 1 ∧
    (observe gap s o).1.detection_count = s.detection_count ∧
    (observe gap s o).2 = SightingEvent.SightingEnded := by
  rw [observe_false_end gap s o hd hp hg]
  exact ⟨rfl, rfl, rfl, rfl⟩

/-- Witness for the amended C3 at the 30-frame boundary. -/
theorem end_transition_state_witness :
    ((⟨false, 0, 0⟩ : FrameSignal).detected = false) ∧
    ((⟨true, 0, 29, none⟩ : SightingState).monkey_present = true) ∧
    (30 ≤ (⟨true, 0, 29, none⟩ : SightingState).no_detection_frames + 1) ∧
    (observe 30 ⟨true, 0, 29, none⟩ ⟨false, 0, 0⟩).2 =
      SightingEvent.SightingEnded :=
  ⟨rfl, rfl, by decide,
   (end_transition_state 30 ⟨true, 0, 29, none⟩ ⟨false, 0, 0⟩ rfl rfl
     (by decide)).2.2.2⟩

/-- Counterexample to C4: the reset performed by start_detection does not
restore the freshly constructed state when the prior session counted a
sighting — detection_count survives the reset. -/
theorem reset_keeps_count_counterexample :
    start_detection_reset (runSignals 30 initState [⟨true, 1, 0⟩]).1
      ≠ initState ∧
    (start_detection_reset
      (runSignals 30 initState [⟨true, 1, 0⟩]).1).detection_count = 1 := by
  decide

/-- C4 (amended): the start_detection reset clears monkey_present,
no_detection_frames and detection_start_time for every prior state, but
preserves detection_count; it coincides with the freshly constructed
state exactly when the prior count was already 0. -/
theorem start_detection_reset_spec (s : SightingState) :
    (start_detection_reset s).monkey_present = false ∧
    (start_detection_reset s).no_detection_frames = 0 ∧
    (start_detection_reset s).detection_start_time = none ∧
    (start_detection_reset s).detection_count = s.detection_count ∧
    (s.detection_count = 0 → start_detection_reset s = initState) := by
  refine ⟨rfl, rfl, rfl, rfl, fun h => ?_⟩
  cases s with
  | mk a b c d => cases h; rfl

/-- Witness for the amended C4 at the initial state. -/
theorem start_detection_reset_spec_witness :
    (initState.detection_count = 0) ∧
    start_detection_reset initState = initState :=
  ⟨rfl, (start_detection_reset_spec initState).2.2.2.2 rfl⟩

/-- Counterexample to C5: with gapFrames 3, in the scenario
[T,F,F,T,F,F,F,F] the SightingEnded event is emitted already at the 7th
observation — the 3rd consecutive detected-false observation after the
second T — not at the 4th one as claimed. -/
theorem scenario_ended_on_third_gap_frame :
    (runSignals 3 initState (List.take 7 seqC5)).2 =
      [SightingEvent.SightingStarted 1 1, SightingEvent.Idle,
       SightingEvent.Idle, SightingEvent.SightingOngoing 1,
       SightingEvent.Idle, SightingEvent.Idle,
       SightingEvent.SightingEnded] := by
  decide

/-- C5 (amended): with gapFrames 3, the scenario [T,F,F,T,F,F,F,F] emits
exactly one SightingStarted (final count 1) and exactly one SightingEnded,
the latter on the 3rd consecutive detected-false observation of the final
run, when the absence run reaches the gap threshold. -/
theorem scenario_trace :
    (runSignals 3 initState seqC5).2 =
      [SightingEvent.SightingStarted 1 1, SightingEvent.Idle,
       SightingEvent.Idle, SightingEvent.SightingOngoing 1,
       SightingEvent.Idle, SightingEvent.Idle,
       SightingEvent.SightingEnded, SightingEvent.Idle] ∧
    (runSignals 3 initState seqC5).1.detection_count = 1 ∧
    (runSignals 3 initState seqC5).2.count SightingEvent.SightingEnded = 1 ∧
    (runSignals 3 initState seqC5).2.countP isStarted = 1 := by
  decide

/-- C6: a detected-true observation arriving while present — in
particular anywhere inside an ongoing absence run — leaves the count
unchanged, clears no_detection_frames, keeps the state present, emits
SightingOngoing (so neither SightingEnded nor a new SightingStarted),
and repeating it is idempotent on the state and the emitted event. -/
theorem ongoing_idempotent (gap : Nat) (s : SightingState) (o : FrameSignal)
    (hd : o.detected = true) (hp : s.monkey_present = true) :
    (observe gap s o).1 = { s with no_detection_frames := 0 } ∧
    (observe gap s o).2 = SightingEvent.SightingOngoing o.confidence ∧
    (observe gap s o).1.detection_count = s.detection_count ∧
    (observe gap s o).1.monkey_present = true ∧
    (observe gap s o).1.no_detection_frames = 0 ∧
    observe gap (observe gap s o).1 o = observe gap s o := by
  rw [observe_true_present gap s o hd hp]
  refine ⟨rfl, rfl, rfl, hp, rfl, ?_⟩
  rw [observe_true_present gap { s with no_detection_frames := 0 } o hd hp]

/-- Witness for C6 at a concrete present state mid absence run. -/
theorem ongoing_idempotent_witness :
    ((⟨true, 1, 5⟩ : FrameSignal).detected = true) ∧
    ((⟨true, 2, 7, none⟩ : SightingState).monkey_present = true) ∧
    observe 30 (observe 30 ⟨true, 2, 7, none⟩ ⟨true, 1, 5⟩).1 ⟨true, 1, 5⟩ =
      observe 30 ⟨true, 2, 7, none⟩ ⟨true, 1, 5⟩ :=
  ⟨rfl, rfl,
   (ongoing_idempotent 30 ⟨true, 2, 7, none⟩ ⟨true, 1, 5⟩ rfl rfl).2.2.2.2.2⟩

/-- Invariant behind C7: starting from any state, the Started and Ended
events of a run strictly alternate, the next expected edge being Started
exactly when the state is currently absent. -/
theorem alternating_run (gap : Nat) :
    ∀ (sigs : List FrameSignal) (s : SightingState),
      alternatingB (!s.monkey_present)
        (List.filter isEdgeEvent (runSignals gap s sigs).2) = true := by
  intro sigs
  induction sigs with
  | nil => intro s; cases hp : s.monkey_present <;> simp [runSignals, alternatingB]
  | cons o rest ih =>
    intro s
    rw [runSignals_cons]
    rcases hd : o.detected with _ | _
    · rcases hp : s.monkey_present with _ | _
      · rw [observe_false_absent gap s o hd hp]
        simpa [isEdgeEvent, isStarted, isEnded, hp] using
          ih { s with no_detection_frames := s.no_detection_frames + 1 }
      · by_cases hg : gap ≤ s.no_detection_frames + 1
        · rw [observe_false_end gap s o hd hp hg]
          simpa [isEdgeEvent, isStarted, isEnded, alternatingB, hp] using
            ih { s with monkey_present := false,
                        no_detection_frames := s.no_detection_frames + 1 }
        · rw [observe_false_present_lt gap s o hd hp (Nat.not_le.mp hg)]
          simpa [isEdgeEvent, isStarted, isEnded, hp] using
            ih { s with no_detection_frames := s.no_detection_frames + 1 }
    · rcases hp : s.monkey_present with _ | _
      · rw [observe_true_absent gap s o hd hp]
        simpa [isEdgeEvent, isStarted, isEnded, alternatingB, hp] using
          ih { monkey_present := true,
               detection_count := s.detection_count + 1,
               no_detection_frames := 0,
               detection_start_time := some o.now }
      · rw [observe_true_present gap s o hd hp]
        simpa [isEdgeEvent, isStarted, isEnded, hp] using
          ih { s with no_detection_frames := 0 }

/-- C7: in every run from the initial state the edge events alternate
correctly — the subsequence of Started and Ended events is
Started, Ended, Started, Ended, ... (so never two Started without an
Ended between them, and at most one Ended per absence episode); and
while absent, every detected-false observation emits only Idle. -/
theorem events_alternate (gap : Nat) :
    (∀ sigs : List FrameSignal,
        alternatingB true
          (List.filter isEdgeEvent (runSignals gap initState sigs).2)
          = true) ∧
    (∀ (s : SightingState) (o : FrameSignal),
        s.monkey_present = false → o.detected = false →
        (observe gap s o).2 = SightingEvent.Idle) := by
  constructor
  · intro sigs
    simpa [initState] using alternating_run gap sigs initState
  · intro s o hp hd
    rw [observe_false_absent gap s o hd hp]

/-- Witness for C7 on the concrete scenario sequence. -/
theorem events_alternate_witness :
    alternatingB true
      (List.filter isEdgeEvent (runSignals 3 initState seqC5).2) = true ∧
    (initState.monkey_present = false) ∧
    ((⟨false, 1, 0⟩ : FrameSignal).detected = false) ∧
    (observe 3 initState ⟨false, 1, 0⟩).2 = SightingEvent.Idle :=
  ⟨(events_alternate 3).1 seqC5, rfl, rfl,
   (events_alternate 3).2 initState ⟨false, 1, 0⟩ rfl rfl⟩

/-- Single-step agreement lemma: two observe steps from states with equal
projections, on signals with equal detected flags, yield equal
projections; with equal confidences they also emit the same event. -/
theorem observe_step_agree (gap : Nat) (s₁ s₂ : SightingState)
    (o₁ o₂ : FrameSignal) (hs : proj s₁ = proj s₂)
    (hd : o₁.detected = o₂.detected) :
    proj (observe gap s₁ o₁).1 = proj (observe gap s₂ o₂).1 ∧
    (o₁.confidence = o₂.confidence →
      (observe gap s₁ o₁).2 = (observe gap s₂ o₂).2) := by
  have hp : s₁.monkey_present = s₂.monkey_present :=
    congrArg Prod.fst hs
  have hc : s₁.detection_count = s₂.detection_count :=
    congrArg (fun p => p.2.1) hs
  have hn : s₁.no_detection_frames = s₂.no_detection_frames :=
    congrArg (fun p => p.2.2) hs
  rcases hdet : o₁.detected with _ | _
  · have hd₂ : o₂.detected = false := by rw [← hd, hdet]
    rcases hpres : s₁.monkey_present with _ | _
    · have hp₂ : s₂.monkey_present = false := by rw [← hp, hpres]
      rw [observe_false_absent gap s₁ o₁ hdet hpres,
          observe_false_absent gap s₂ o₂ hd₂ hp₂]
      exact ⟨by simp [proj, hp, hc, hn], fun _ => rfl⟩
    · have hp₂ : s₂.monkey_present = true := by rw [← hp, hpres]
      by_cases hg : gap ≤ s₁.no_detection_frames + 1
      · have hg₂ : gap ≤ s₂.no_detection_frames + 1 := by rw [← hn]; exact hg
        rw [observe_false_end gap s₁ o₁ hdet hpres hg,
            observe_false_end gap s₂ o₂ hd₂ hp₂ hg₂]
        exact ⟨by simp [proj, hc, hn], fun _ => rfl⟩
      · have hg₂ : s₂.no_detection_frames + 1 < gap := by
          rw [← hn]; exact Nat.not_le.mp hg
        rw [observe_false_present_lt gap s₁ o₁ hdet hpres (Nat.not_le.mp hg),
            observe_false_present_lt gap s₂ o₂ hd₂ hp₂ hg₂]
        exact ⟨by simp [proj, hp, hc, hn], fun _ => rfl⟩
  · have hd₂ : o₂.detected = true := by rw [← hd, hdet]
    rcases hpres : s₁.monkey_present with _ | _
    · have hp₂ : s₂.monkey_present = false := by rw [← hp, hpres]
      rw [observe_true_absent gap s₁ o₁ hdet hpres,
          observe_true_absent gap s₂ o₂ hd₂ hp₂]
      exact ⟨by simp [proj, hc], fun hconf => by rw [hc, hconf]⟩
    · have hp₂ : s₂.monkey_present = true := by rw [← hp, hpres]
      rw [observe_true_present gap s₁ o₁ hdet hpres,
          observe_true_present gap s₂ o₂ hd₂ hp₂]
      exact ⟨by simp [proj, hp, hc], fun hconf => by rw [hconf]⟩

/-- Run-level agreement: runs from states with equal projections on
signal lists with pointwise equal detected flags end with equal
projections, and with pointwise equal confidences they emit identical
event lists. -/
theorem run_noninterference (gap : Nat) :
    ∀ (l₁ l₂ : List FrameSignal) (s₁ s₂ : SightingState),
      proj s₁ = proj s₂ →
      l₁.map FrameSignal.detected = l₂.map FrameSignal.detected →
      proj (runSignals gap s₁ l₁).1 = proj (runSignals gap s₂ l₂).1 ∧
      (l₁.map FrameSignal.confidence = l₂.map FrameSignal.confidence →
        (runSignals gap s₁ l₁).2 = (runSignals gap s₂ l₂).2) := by
  intro l₁
  induction l₁ with
  | nil =>
    intro l₂ s₁ s₂ hs hd
    have hnil : l₂ = [] := by
      cases l₂ with
      | nil => rfl
      | cons x xs => simp at hd
    subst hnil
    exact ⟨hs, fun _ => rfl⟩
  | cons o rest ih =>
    intro l₂ s₁ s₂ hs hd
    cases l₂ with
    | nil => simp at hd
    | cons o₂ rest₂ =>
      simp only [List.map_cons, List.cons.injEq] at hd
      have step := observe_step_agree gap s₁ s₂ o o₂ hs hd.1
      have tail := ih rest₂ (observe gap s₁ o).1 (observe gap s₂ o₂).1
        step.1 hd.2
      rw [runSignals_cons, runSignals_cons]
      refine ⟨tail.1, fun hconf => ?_⟩
      simp only [List.map_cons, List.cons.injEq] at hconf
      rw [step.2 hconf.1, tail.2 hconf.2]

/-- Counterexample to C8: the claim also covers
MonkeyDetectionGUI.handle_detection (src/monkey_detection_gui.py), whose
de-duplication is wall-clock based.  Two detected-true signals with
identical detected flags and confidences, delivered 1 second apart versus
10 seconds apart, yield different detection counts (1 versus 2) under the
5-second alert_cooldown. -/
theorem wallclock_cooldown_counterexample :
    (([⟨true, 1, 10⟩, ⟨true, 1, 11⟩] : List FrameSignal).map
        FrameSignal.detected =
      ([⟨true, 1, 10⟩, ⟨true, 1, 20⟩] : List FrameSignal).map
        FrameSignal.detected) ∧
    (([⟨true, 1, 10⟩, ⟨true, 1, 11⟩] : List FrameSignal).map
        FrameSignal.confidence =
      ([⟨true, 1, 10⟩, ⟨true, 1, 20⟩] : List FrameSignal).map
        FrameSignal.confidence) ∧
    (runGui 5 guiInit [⟨true, 1, 10⟩, ⟨true, 1, 11⟩]).detection_count ≠
      (runGui 5 guiInit [⟨true, 1, 10⟩, ⟨true, 1, 20⟩]).detection_count := by
  have h1 : (runGui 5 guiInit
      [⟨true, 1, 10⟩, ⟨true, 1, 11⟩]).detection_count = 1 := by
    norm_num [runGui, gui_handle_detection, guiInit]
  have h2 : (runGui 5 guiInit
      [⟨true, 1, 10⟩, ⟨true, 1, 20⟩]).detection_count = 2 := by
    norm_num [runGui, gui_handle_detection, guiInit]
  exact ⟨by decide, by decide, by rw [h1, h2]; decide⟩

/-- C8 (amended): the debouncer of FixedMonkeyDetectorGUI is frame-count
based and independent of wall-clock time — two input sequences with the
same detected flags and confidences but arbitrary delivery instants
produce the same state projection and the same event sequence; the
wall-clock dependence refuted above is confined to the cooldown handler
of MonkeyDetectionGUI. -/
theorem frame_count_time_independence (gap : Nat)
    (l₁ l₂ : List FrameSignal)
    (hd : l₁.map FrameSignal.detected = l₂.map FrameSignal.detected)
    (hc : l₁.map FrameSignal.confidence = l₂.map FrameSignal.confidence) :
    proj (runSignals gap initState l₁).1 =
      proj (runSignals gap initState l₂).1 ∧
    (runSignals gap initState l₁).2 = (runSignals gap initState l₂).2 := by
  have h := run_noninterference gap l₁ l₂ initState initState rfl hd
  exact ⟨h.1, h.2 hc⟩

/-- Witness for the amended C8: one signal delivered at time 0 versus
time 99 gives the same emitted events. -/
theorem frame_count_time_independence_witness :
    (([⟨true, 1, 0⟩] : List FrameSignal).map FrameSignal.detected =
      ([⟨true, 1, 99⟩] : List FrameSignal).map FrameSignal.detected) ∧
    (([⟨true, 1, 0⟩] : List FrameSignal).map FrameSignal.confidence =
      ([⟨true, 1, 99⟩] : List FrameSignal).map FrameSignal.confidence) ∧
    (runSignals 30 initState [⟨true, 1, 0⟩]).2 =
      (runSignals 30 initState [⟨true, 1, 99⟩]).2 :=
  ⟨by decide, by decide,
   (frame_count_time_independence 30 [⟨true, 1, 0⟩] [⟨true, 1, 99⟩]
     (by decide) (by decide)).2⟩

/-- C9: the confidence value never influences the state evolution — for
two input sequences with pointwise equal detected flags but arbitrary
confidences, the state projection after every prefix is identical. -/
theorem confidence_noninterference (gap : Nat) (l₁ l₂ : List FrameSignal)
    (hd : l₁.map FrameSignal.detected = l₂.map FrameSignal.detected) :
    ∀ k : Nat,
      proj (runSignals gap initState (l₁.take k)).1 =
        proj (runSignals gap initState (l₂.take k)).1 := by
  intro k
  have hk : (l₁.take k).map FrameSignal.detected =
      (l₂.take k).map FrameSignal.detected := by
    rw [List.map_take, List.map_take, hd]
  exact (run_noninterference gap (l₁.take k) (l₂.take k)
    initState initState rfl hk).1

/-- Witness for C9: the same boolean stream with confidences 1 versus 0
gives the same state projection. -/
theorem confidence_noninterference_witness :
    (([⟨true, 1, 0⟩] : List FrameSignal).map FrameSignal.detected =
      ([⟨true, 0, 0⟩] : List FrameSignal).map FrameSignal.detected) ∧
    proj (runSignals 30 initState
        (([⟨true, 1, 0⟩] : List FrameSignal).take 1)).1 =
      proj (runSignals 30 initState
        (([⟨true, 0, 0⟩] : List FrameSignal).take 1)).1 :=
  ⟨by decide,
   confidence_noninterference 30 [⟨true, 1, 0⟩] [⟨true, 0, 0⟩] (by decide) 1⟩

/-- While absent, any number of detected-false observations only advance
the run counter: the state stays absent with the same count and start
time, and every emitted event is Idle. -/
theorem run_absent_replicate (gap : Nat) (conf tm : ℚ) (c : Nat)
    (t : Option ℚ) :
    ∀ (k n : Nat),
      runSignals gap ⟨false, c, n, t⟩ (List.replicate k ⟨false, conf, tm⟩) =
        (⟨false, c, n + k, t⟩, List.replicate k SightingEvent.Idle) := by
  intro k
  induction k with
  | zero => intro n; simp [runSignals]
  | succ k ih =>
    intro n
    rw [List.replicate_succ, runSignals_cons,
        observe_false_absent gap ⟨false, c, n, t⟩ ⟨false, conf, tm⟩ rfl rfl,
        show { (⟨false, c, n, t⟩ : SightingState) with
                 no_detection_frames := n + 1 } =
          (⟨false, c, n + 1, t⟩ : SightingState) from rfl, ih (n + 1)]
    have harith : n + 1 + k = n + (k + 1) := by omega
    rw [harith]
    simp [List.replicate_succ]

/-- C10: while absent, every detected-false observation leaves presence
and count unchanged and emits only Idle, yet keeps incrementing
no_detection_frames without bound; the next detected-true observation
clears the counter and emits a normal SightingStarted — never a
SightingEnded — behaving exactly as it would from a cleared counter. -/
theorem absent_frames_unbounded (gap : Nat) :
    (∀ (s : SightingState) (o : FrameSignal),
        s.monkey_present = false → o.detected = false →
        (observe gap s o).1 =
          { s with no_detection_frames := s.no_detection_frames + 1 } ∧
        (observe gap s o).2 = SightingEvent.Idle) ∧
    (∀ (c n : Nat) (t : Option ℚ) (conf tm : ℚ) (k : Nat),
        runSignals gap ⟨false, c, n, t⟩
            (List.replicate k ⟨false, conf, tm⟩) =
          (⟨false, c, n + k, t⟩, List.replicate k SightingEvent.Idle)) ∧
    (∀ (s : SightingState) (o : FrameSignal),
        s.monkey_present = false → o.detected = true →
        (observe gap s o).1.no_detection_frames = 0 ∧
        (observe gap s o).1.detection_count = s.detection_count + 1 ∧
        (observe gap s o).2 =
          SightingEvent.SightingStarted (s.detection_count + 1)
            o.confidence ∧
        observe gap s o =
          observe gap { s with no_detection_frames := 0 } o) := by
  refine ⟨fun s o hp hd => ?_,
          fun c n t conf tm k => run_absent_replicate gap conf tm c t k n,
          fun s o hp hd => ?_⟩
  · rw [observe_false_absent gap s o hd hp]
    exact ⟨rfl, rfl⟩
  · rw [observe_true_absent gap s o hd hp,
        observe_true_absent gap { s with no_detection_frames := 0 } o hd hp]
    exact ⟨rfl, rfl, rfl, rfl⟩

/-- Witness for C10: an Idle step from the initial state, and a fresh
SightingStarted from an absent state with a stale counter of 77. -/
theorem absent_frames_unbounded_witness :
    (initState.monkey_present = false) ∧
    ((⟨false, 1, 0⟩ : FrameSignal).detected = false) ∧
    (observe 30 initState ⟨false, 1, 0⟩).2 = SightingEvent.Idle ∧
    ((⟨false, 0, 77, none⟩ : SightingState).monkey_present = false) ∧
    ((⟨true, 1, 0⟩ : FrameSignal).detected = true) ∧
    (observe 30 ⟨false, 0, 77, none⟩ ⟨true, 1, 0⟩).2 =
      SightingEvent.SightingStarted 1 1 :=
  ⟨rfl, rfl,
   ((absent_frames_unbounded 30).1 initState ⟨false, 1, 0⟩ rfl rfl).2,
   rfl, rfl,
   ((absent_frames_unbounded 30).2.2 ⟨false, 0, 77, none⟩ ⟨true, 1, 0⟩
     rfl rfl).2.2.1⟩

/-- Witness for C2 on the concrete 29-frame run of zero-confidence
detected-false signals from a present state with count 1. -/
theorem gap_boundary_thirty_witness :
    (∀ x ∈ List.replicate 29 (⟨false, 0, 0⟩ : FrameSignal),
        x.detected = false) ∧
    (List.replicate 29 (⟨false, 0, 0⟩ : FrameSignal)).length = 29 ∧
    ((⟨false, 0, 0⟩ : FrameSignal).detected = false) ∧
    (runSignals min_gap_frames ⟨true, 1, 0, none⟩
        (List.replicate 29 (⟨false, 0, 0⟩ : FrameSignal) ++
          [⟨false, 0, 0⟩])).1.monkey_present = false :=
  ⟨by decide, by decide, rfl,
   (gap_boundary_thirty 1 none (List.replicate 29 ⟨false, 0, 0⟩)
     ⟨false, 0, 0⟩ (by decide) (by decide) rfl).2.2.1⟩

end Monkey
